import Mathlib

/-!
Verification development for `multiparser/monitor.py` (class `FileMonitor`).

The class is embedded shallowly: the attributes set in `FileMonitor.__init__`
become the fields of `MState`; each method becomes a function from `MState` to
`MRes`, a record holding the post-call state (Python mutates `self` even when
the method then raises), the list of externally visible effects the call
performed (signal sets, thread starts and joins, the logger warning), and the
exception the call raised, if any.  Thread objects are embedded as a record of
their `started` flag and their recorded-exception slot; joining is an effect,
and the exception slot read after the join is the slot stored in the state.
Python values that may appear where a glob pattern is expected are embedded as
`PyVal`; `glob.glob` is embedded by its success/failure behaviour on each kind
of value (it accepts `str` and `bytes`, and raises `TypeError` otherwise).
-/

namespace Multiparser

/-- Python runtime values that can appear in a glob-pattern position:
strings, `bytes`, compiled regular expressions (`re.Pattern`), integers. -/
inductive PyVal where
  | pyStr (s : String)
  | pyBytes (bs : List Nat)
  | pyRegex (pat : String)
  | pyInt (n : Int)
deriving DecidableEq

def PyVal.isStr : PyVal → Bool
  | .pyStr _ => true
  | _ => false

def PyVal.isBytes : PyVal → Bool
  | .pyBytes _ => true
  | _ => false

def PyVal.isRegex : PyVal → Bool
  | .pyRegex _ => true
  | _ => false

/-- Python exceptions relevant to the monitor: `AssertionError` raised by the
monitor itself, `TypeError` raised by library code such as `glob.glob`, and an
exception object recorded by a launcher thread and re-raised by `terminate`. -/
inductive PyError where
  | assertionError (msg : String)
  | typeError (msg : String)
  | raised (e : String)
deriving DecidableEq

/-- Model of `glob.glob`: expansion succeeds on `str` and `bytes` patterns
(the Python `glob` module accepts both) and raises `TypeError` for any other
argument type.  Only success or failure is kept; the matched paths are
irrelevant to the monitor's configure-time behaviour. -/
def globGlob : PyVal → Option PyError
  | .pyStr _ => none
  | .pyBytes _ => none
  | _ => some (.typeError "expected str, bytes or os.PathLike object")

/-- A user-supplied parser function, embedded by the three observations
`FileMonitor._check_custom_log_parser` makes of it: its `__name__`, whether
calling it on the synthetic test input raises (and with what message), and the
length of the tuple it returns when it does not raise. -/
structure PyParser where
  name : String
  callRaises : Option String
  resultLen : Nat
deriving DecidableEq

/-- Whether the character list `pat` is an initial segment of `text`. -/
def startsWithChars : List Char → List Char → Bool
  | [], _ => true
  | _ :: _, [] => false
  | p :: ps, c :: cs => p == c && startsWithChars ps cs

/-- Whether the character list `pat` occurs contiguously inside `text`. -/
def occursInChars (pat : List Char) : List Char → Bool
  | [] => pat.isEmpty
  | c :: cs => startsWithChars pat (c :: cs) || occursInChars pat cs

/-- Whether `needle` occurs inside `hay`, as Python `needle in hay`. -/
def containsSubstring (hay needle : String) : Bool :=
  occursInChars needle.toList hay.toList

/-- A full-file trackable: the dictionary appended by `FileMonitor.track`. -/
structure FullFileTrackable where
  glob_expr : PyVal
  tracked_values : Option (List String)
  static : Bool
  customParser : Option PyParser
  parser_kwargs : Option (List (String × PyVal))
  file_type : Option String
deriving DecidableEq

/-- A log-file trackable: the dictionary appended by `FileMonitor.tail`. -/
structure LogFileTrackable where
  glob_expr : PyVal
  tracked_values : Option (List (Option String × String))
  static : Bool
  customParser : Option PyParser
  parser_kwargs : Option (List (String × PyVal))
deriving DecidableEq

/-- A `multiparser.thread.HandledThread` as the monitor observes it: whether it
was started, and its recorded-exception slot as read after a join. -/
structure HandledThread where
  started : Bool
  exception : Option String
deriving DecidableEq

/-- The state of a `FileMonitor` object: the attributes set by `__init__`.
The callback attributes (`_per_thread_callback`, `_exception_callback`,
`_notification_callback`) are opaque function references that no embedded
method inspects, so they are not represented; `_file_threads_mutex` is
represented by whether it exists (`lockCallbacks`).  When a
`termination_trigger` is supplied, `_complete` and `_abort_file_monitors` are
the same event object; `manualAbort` records this aliasing and the two
`Bool` fields are kept equal through the signal setters below. -/
structure MState where
  interval : ℚ
  lockCallbacks : Bool
  manualAbort : Bool
  completeSet : Bool
  abortSet : Bool
  knownFiles : List String
  fileTrackables : List FullFileTrackable
  logTrackables : List LogFileTrackable
  excludedPatterns : List PyVal
  fileMonitorThread : Option HandledThread
  logMonitorThread : Option HandledThread
  flattenData : Bool
deriving DecidableEq

/-- The names of the keyword parameters of `FileMonitor.__init__`, in
signature order, as found in the source. -/
def fileMonitorInitParams : List String :=
  ["per_thread_callback", "exception_callback", "notification_callback",
   "termination_trigger", "lock_callbacks", "interval", "log_level",
   "flatten_data"]

/-- Modelled from the spec: the closed construction-option set the
specification claims for the supervisor, for refinement comparison with
`fileMonitorInitParams`. -/
def specClaimedInitParams : List String :=
  ["per_thread_callback", "exception_callback", "notification_callback",
   "termination_trigger", "lock_callbacks", "interval", "log_level",
   "flatten_data", "timeout", "terminate_all_on_fail"]

/-- Embedding of `FileMonitor.__init__`.  `terminationTrigger` is `none` when
no external trigger is passed, and `some b` for an external `threading.Event`
whose current set-state is `b`; the constructor aliases both internal events
to it in that case. -/
def mkFileMonitor (terminationTrigger : Option Bool) (lockCallbacks : Bool)
    (interval : ℚ) (flattenData : Bool) : MState :=
  { interval := interval
    lockCallbacks := lockCallbacks
    manualAbort := terminationTrigger.isSome
    completeSet := terminationTrigger.getD false
    abortSet := terminationTrigger.getD false
    knownFiles := []
    fileTrackables := []
    logTrackables := []
    excludedPatterns := []
    fileMonitorThread := none
    logMonitorThread := none
    flattenData := flattenData }

/-- Setting the `_complete` event.  When the constructor received a
`termination_trigger`, `_complete` and `_abort_file_monitors` are the same
object, so setting one sets the other. -/
def MState.setComplete (s : MState) : MState :=
  if s.manualAbort then { s with completeSet := true, abortSet := true }
  else { s with completeSet := true }

/-- Setting the `_abort_file_monitors` event; aliasing as in `setComplete`. -/
def MState.setAbort (s : MState) : MState :=
  if s.manualAbort then { s with completeSet := true, abortSet := true }
  else { s with abortSet := true }

/-- Externally visible effects a monitor method can perform. -/
inductive Effect where
  | setAbortSignal
  | setCompleteSignal
  | startFileThread
  | startLogThread
  | joinFileThread
  | joinLogThread
  | warnNoFiles
deriving DecidableEq

/-- Result of a method call: the state of `self` after the call (mutations
survive a raise), the effects performed, and the exception raised if any. -/
structure MRes where
  state : MState
  trace : List Effect
  err : Option PyError
deriving DecidableEq

namespace FileMonitor

/-- Embedding of `FileMonitor.__enter__`: create the two handled threads. -/
def enter (s : MState) : MState :=
  { s with fileMonitorThread := some ⟨false, none⟩
           logMonitorThread := some ⟨false, none⟩ }

/-- Embedding of `FileMonitor.__exit__`: set the completion signal only. -/
def exitCtx (s : MState) : MRes :=
  ⟨s.setComplete, [.setCompleteSignal], none⟩

end FileMonitor

/-- The exception `terminate` re-raises: the full-file launcher's recorded
exception if there is one, otherwise the log launcher's
(`self._file_monitor_thread.exception or self._log_monitor_thread.exception`). -/
def firstLauncherException (ft lt : HandledThread) : Option String :=
  match ft.exception with
  | some e => some e
  | none => lt.exception

def msgContextManager : String := "FileMonitor must be used as a context manager."

def msgGlobType : String := "Globular expression must be of type AnyStr"

def msgBothTrackedAndParser : String :=
  "Cannot specify both tracked values and custom parser for monitor method \x27track\x27"

def msgBothLabelsAndParser : String :=
  "Cannot specify both labels and custom parser for monitor method \x27track\x27"

def msgLabelCount : String :=
  "Number of labels must match number of regular expressions in \x27tail\x27."

namespace FileMonitor

/-- Embedding of `FileMonitor.terminate`.  With the default
`__manual_abort=True` it first sets the abort and completion signals; it then
raises unless both launcher threads exist, joins both, warns through the
logger when the known-files list is empty, and re-raises the first recorded
launcher exception if there is one. -/
def terminate (manualAbortArg : Bool) (s : MState) : MRes :=
  let s1 := if manualAbortArg then (s.setAbort).setComplete else s
  let tr : List Effect :=
    if manualAbortArg then [.setAbortSignal, .setCompleteSignal] else []
  match s1.fileMonitorThread, s1.logMonitorThread with
  | some ft, some lt =>
    let tr := tr ++ [.joinFileThread, .joinLogThread]
    let tr := tr ++ (if s1.knownFiles.isEmpty then [.warnNoFiles] else [])
    match firstLauncherException ft lt with
    | some e => ⟨s1, tr, some (.raised e)⟩
    | none => ⟨s1, tr, none⟩
  | _, _ => ⟨s1, tr, some (.assertionError msgContextManager)⟩

/-- Embedding of `FileMonitor.run`: raise unless both threads exist, start
both, and when a `termination_trigger` was supplied at construction call
`terminate(False)` (join both launchers and re-raise, without setting the
signals). -/
def run (s : MState) : MRes :=
  match s.fileMonitorThread, s.logMonitorThread with
  | some ft, some lt =>
    let s1 := { s with fileMonitorThread := some { ft with started := true }
                       logMonitorThread := some { lt with started := true } }
    let tr : List Effect := [.startFileThread, .startLogThread]
    if s1.manualAbort then
      let r := terminate false s1
      ⟨r.state, tr ++ r.trace, r.err⟩
    else ⟨s1, tr, none⟩
  | _, _ => ⟨s, [], some (.assertionError msgContextManager)⟩

/-- Embedding of `FileMonitor._check_custom_log_parser`: call the parser on
the synthetic input (wrapping any raise in an `AssertionError`), require a
two-element result, then require the decoration marker in its name. -/
def checkCustomLogParser (parser : PyParser) : Option PyError :=
  match parser.callRaises with
  | some e =>
    some (.assertionError ("Custom parser testing failed with exception:\n" ++ e))
  | none =>
    if parser.resultLen ≠ 2 then
      some (.assertionError
        "Parser function must return two objects, a metadata dictionary and parsed values")
    else if ¬ containsSubstring parser.name "_wrapper" then
      some (.assertionError
        "Parser function must be decorated using the multiparser.parser decorator")
    else none

end FileMonitor

/-- The `path_glob_exprs` argument: either a single non-list value or a list
of values. -/
inductive GlobArg where
  | single (v : PyVal)
  | listOf (vs : List PyVal)
deriving DecidableEq

/-- Iterating a Python value that failed the method's single-value
`isinstance` test (list concatenation / comprehension): `bytes` iterates to
its integer bytes, `str` to its one-character strings, and other values raise
`TypeError` before any mutation. -/
def iterElems : PyVal → Except PyError (List PyVal)
  | .pyBytes bs => .ok (bs.map (fun b => .pyInt (Int.ofNat b)))
  | .pyStr s => .ok (s.toList.map (fun c => .pyStr (String.mk [c])))
  | _ => .error (.typeError "argument of type is not iterable")

/-- The list of glob expressions a call contributes: a single value passing
the method's `isinstance` test contributes itself, any other single value is
iterated, and a list contributes its elements. -/
def globArgElems (singleTest : PyVal → Bool) : GlobArg → Except PyError (List PyVal)
  | .single v => if singleTest v then .ok [v] else iterElems v
  | .listOf vs => .ok vs

/-- The trailing validation loop of `track` and `tail`: every accumulated glob
expression must be a `str` (else `AssertionError`), then is expanded with
`glob.glob`. -/
def validateTrackableGlobs : List PyVal → Option PyError
  | [] => none
  | g :: rest =>
    if ¬ g.isStr then some (.assertionError msgGlobType)
    else
      match globGlob g with
      | some e => some e
      | none => validateTrackableGlobs rest

/-- The trailing validation loop of `exclude`: every accumulated pattern is
passed to `glob.glob` with no type check of the monitor's own. -/
def validateExcludedGlobs : List PyVal → Option PyError
  | [] => none
  | g :: rest =>
    match globGlob g with
    | some e => some e
    | none => validateExcludedGlobs rest

namespace FileMonitor

/-- Embedding of `FileMonitor.exclude`: append the supplied pattern(s) to the
excluded list, then expand every accumulated pattern. -/
def exclude (pathGlobExprs : GlobArg) (s : MState) : MRes :=
  match globArgElems PyVal.isStr pathGlobExprs with
  | .error e => ⟨s, [], some e⟩
  | .ok gs =>
    let s1 := { s with excludedPatterns := s.excludedPatterns ++ gs }
    ⟨s1, [], validateExcludedGlobs s1.excludedPatterns⟩

/-- Embedding of `FileMonitor.track`: build one full-file trackable per glob
expression, append them, then validate every accumulated trackable's glob
expression.  No validation of the custom parser argument is performed. -/
def track (pathGlobExprs : GlobArg) (trackedValues : Option (List String))
    (customParser : Option PyParser)
    (parserKwargs : Option (List (String × PyVal)))
    (static : Bool) (fileType : Option String) (s : MState) : MRes :=
  match globArgElems PyVal.isStr pathGlobExprs with
  | .error e => ⟨s, [], some e⟩
  | .ok gs =>
    let newTs : List FullFileTrackable := gs.map (fun g =>
      { glob_expr := g
        tracked_values := trackedValues
        static := static
        customParser := customParser
        parser_kwargs := parserKwargs
        file_type := fileType })
    let s1 := { s with fileTrackables := s.fileTrackables ++ newTs }
    ⟨s1, [], validateTrackableGlobs (s1.fileTrackables.map (·.glob_expr))⟩

end FileMonitor

/-- The `tracked_values` argument of `tail`: absent, a single non-collection
value, or a list of values. -/
inductive TVArg where
  | noneGiven
  | single (v : String)
  | listOf (vs : List String)
deriving DecidableEq

/-- The `labels` argument of `tail`. -/
inductive LabArg where
  | noneGiven
  | single (l : String)
  | listOf (ls : List (Option String))
deriving DecidableEq

/-- Python truthiness of the original `tracked_values` argument. -/
def TVArg.truthy : TVArg → Bool
  | .noneGiven => false
  | .single v => v != ""
  | .listOf vs => !vs.isEmpty

/-- Python truthiness of the original `labels` argument. -/
def LabArg.truthy : LabArg → Bool
  | .noneGiven => false
  | .single l => l != ""
  | .listOf ls => !ls.isEmpty

/-- Normalisation of `tracked_values` into `_tracked_values`. -/
def TVArg.toList : TVArg → List String
  | .noneGiven => []
  | .single v => [v]
  | .listOf vs => vs

/-- Normalisation of `labels` into `_labels`. -/
def LabArg.toList : LabArg → List (Option String)
  | .noneGiven => []
  | .single l => [some l]
  | .listOf ls => ls

namespace FileMonitor

/-- Embedding of `FileMonitor.tail`: check a supplied custom parser, reject a
custom parser combined with truthy tracked values or truthy labels, check the
label count, pair labels with expressions, append one log trackable per glob
expression, then validate every accumulated trackable's glob expression. -/
def tail (pathGlobExprs : GlobArg) (trackedValues : TVArg) (labels : LabArg)
    (customParser : Option PyParser)
    (parserKwargs : Option (List (String × PyVal))) (s : MState) : MRes :=
  match (match customParser with
         | some p => checkCustomLogParser p
         | none => none) with
  | some e => ⟨s, [], some e⟩
  | none =>
    if customParser.isSome && trackedValues.truthy then
      ⟨s, [], some (.assertionError msgBothTrackedAndParser)⟩
    else if customParser.isSome && labels.truthy then
      ⟨s, [], some (.assertionError msgBothLabelsAndParser)⟩
    else
      let tvs := trackedValues.toList
      let labs := labels.toList
      if !labs.isEmpty && (labs.length != tvs.length) then
        ⟨s, [], some (.assertionError msgLabelCount)⟩
      else
        let pairing : Option (List (Option String × String)) :=
          if tvs.isEmpty || customParser.isSome then none
          else
            let labs2 := if labs.isEmpty then List.replicate tvs.length none else labs
            some (labs2.zip tvs)
        match globArgElems (fun v => v.isStr || v.isRegex) pathGlobExprs with
        | .error e => ⟨s, [], some e⟩
        | .ok gs =>
          let newTs : List LogFileTrackable := gs.map (fun g =>
            { glob_expr := g
              tracked_values := pairing
              static := false
              customParser := customParser
              parser_kwargs := parserKwargs })
          let s1 := { s with logTrackables := s.logTrackables ++ newTs }
          ⟨s1, [], validateTrackableGlobs (s1.logTrackables.map (·.glob_expr))⟩

end FileMonitor

end Multiparser

/-! ## Helper lemmas -/

namespace Multiparser

theorem MState.setAbort_setComplete (s : MState) :
    (s.setAbort).setComplete = { s with completeSet := true, abortSet := true } := by
  by_cases h : s.manualAbort <;> simp [MState.setAbort, MState.setComplete, h]

theorem validateTrackableGlobs_eq (l : List PyVal) :
    validateTrackableGlobs l =
      if l.all PyVal.isStr then none else some (.assertionError msgGlobType) := by
  induction l with
  | nil => simp [validateTrackableGlobs]
  | cons g rest ih =>
    by_cases hg : g.isStr = true
    · cases g <;> simp_all [validateTrackableGlobs, globGlob, PyVal.isStr]
    · simp [validateTrackableGlobs, hg, List.all_cons]

theorem validateExcludedGlobs_eq (l : List PyVal) :
    validateExcludedGlobs l =
      if l.all (fun g => g.isStr || g.isBytes) then none
      else some (.typeError "expected str, bytes or os.PathLike object") := by
  induction l with
  | nil => simp [validateExcludedGlobs]
  | cons g rest ih =>
    cases g <;> simp_all [validateExcludedGlobs, globGlob, PyVal.isStr, PyVal.isBytes]

end Multiparser

/-! ## Claims C1, C2 -/

namespace Multiparser

/-- C1: for a FileMonitor that has entered scoped acquisition (both launcher
threads exist), `terminate()` sets the termination and completion signals,
joins both launchers, emits the no-files warning through the logger exactly
when the known-files list is empty, re-raises the first recorded launcher
failure, and raises nothing when neither launcher recorded one — so a session
that observed zero files warns but does not fail for that reason alone. -/
theorem FileMonitor.terminate_sets_joins_and_reraises (s : MState)
    (ft lt : HandledThread) (hf : s.fileMonitorThread = some ft)
    (hl : s.logMonitorThread = some lt) :
    (FileMonitor.terminate true s).state.abortSet = true ∧
    (FileMonitor.terminate true s).state.completeSet = true ∧
    Effect.joinFileThread ∈ (FileMonitor.terminate true s).trace ∧
    Effect.joinLogThread ∈ (FileMonitor.terminate true s).trace ∧
    (FileMonitor.terminate true s).err =
      (firstLauncherException ft lt).map PyError.raised ∧
    (Effect.warnNoFiles ∈ (FileMonitor.terminate true s).trace ↔ s.knownFiles = []) ∧
    (ft.exception = none → lt.exception = none →
      (FileMonitor.terminate true s).err = none) := by
  unfold FileMonitor.terminate
  rw [MState.setAbort_setComplete]
  cases hexc : ft.exception <;>
    cases hlexc : lt.exception <;>
      cases hk : s.knownFiles <;>
        simp_all [firstLauncherException, hf, hl]

/-- Witness for C1: on a freshly entered monitor with no trigger, `terminate`
sets the abort signal and, both exception slots being empty, raises nothing. -/
theorem FileMonitor.terminate_sets_joins_and_reraises_witness :
    (FileMonitor.terminate true
        (FileMonitor.enter (mkFileMonitor none true (1/1000) false))).err = none ∧
    (FileMonitor.terminate true
        (FileMonitor.enter (mkFileMonitor none true (1/1000) false))).state.abortSet = true :=
  ⟨(FileMonitor.terminate_sets_joins_and_reraises _ ⟨false, none⟩ ⟨false, none⟩
      rfl rfl).2.2.2.2.2.2 rfl rfl,
   (FileMonitor.terminate_sets_joins_and_reraises _ ⟨false, none⟩ ⟨false, none⟩
      rfl rfl).1⟩

/-- C2: inside scoped acquisition `run()` starts both launcher threads; it
joins the launchers (blocking until termination) if and only if the monitor
was constructed with an external termination trigger, and in that case it
re-raises the first recorded launcher failure, exactly the join-and-drain
behaviour of `terminate`; without a trigger it returns immediately, its only
effects being the two starts, with no error raised. -/
theorem FileMonitor.run_starts_and_blocks_iff_trigger (s : MState)
    (ft lt : HandledThread) (hf : s.fileMonitorThread = some ft)
    (hl : s.logMonitorThread = some lt) :
    (FileMonitor.run s).state.fileMonitorThread = some { ft with started := true } ∧
    (FileMonitor.run s).state.logMonitorThread = some { lt with started := true } ∧
    (FileMonitor.run s).trace.take 2 = [Effect.startFileThread, Effect.startLogThread] ∧
    (s.manualAbort = true ↔
      (Effect.joinFileThread ∈ (FileMonitor.run s).trace ∧
       Effect.joinLogThread ∈ (FileMonitor.run s).trace)) ∧
    (s.manualAbort = true →
      (FileMonitor.run s).err = (firstLauncherException ft lt).map PyError.raised) ∧
    (s.manualAbort = false →
      (FileMonitor.run s).trace = [Effect.startFileThread, Effect.startLogThread] ∧
      (FileMonitor.run s).err = none) := by
  unfold FileMonitor.run FileMonitor.terminate
  by_cases hm : s.manualAbort <;>
    cases hexc : ft.exception <;>
      cases hlexc : lt.exception <;>
        cases hk : s.knownFiles <;>
          simp_all [firstLauncherException, hf, hl]

/-- Witness for C2: on an entered monitor built with an external trigger,
`run` re-raises nothing since neither launcher recorded a failure. -/
theorem FileMonitor.run_starts_and_blocks_iff_trigger_witness :
    (FileMonitor.run
        (FileMonitor.enter (mkFileMonitor (some false) true (1/1000) false))).err = none :=
  ((FileMonitor.run_starts_and_blocks_iff_trigger _ ⟨false, none⟩ ⟨false, none⟩
      rfl rfl).2.2.2.2.1 rfl).trans rfl

end Multiparser

/-! ## Claims C3, C4, C5 -/

namespace Multiparser

/-- C3 counterexample: `track` with a parser that lacks the decoration marker
(its name contains no wrapper tag, so `_check_custom_log_parser` would reject
it) returns without error and appends the trackable, parser unvalidated. -/
theorem FileMonitor.track_accepts_invalid_parser :
    FileMonitor.checkCustomLogParser ⟨"my_parser", none, 2⟩ =
      some (.assertionError
        "Parser function must be decorated using the multiparser.parser decorator") ∧
    (FileMonitor.track (.single (.pyStr "*.json")) none (some ⟨"my_parser", none, 2⟩)
        none false none (mkFileMonitor none true (1/1000) false)).err = none ∧
    (FileMonitor.track (.single (.pyStr "*.json")) none (some ⟨"my_parser", none, 2⟩)
        none false none (mkFileMonitor none true (1/1000) false)).state.fileTrackables =
      [⟨.pyStr "*.json", none, false, some ⟨"my_parser", none, 2⟩, none, none⟩] := by
  refine ⟨?_, rfl, rfl⟩
  decide

/-- C3 amended: only `tail` validates a supplied parser function — a parser
the check rejects makes `tail` raise that configuration error with the state
untouched — while `track` performs no parser validation at all: its outcome
is identical whether the parser is supplied or not, and the trackable is
appended carrying the unvalidated parser. -/
theorem FileMonitor.parser_validation_only_in_tail (p : PyParser) (e : PyError)
    (he : FileMonitor.checkCustomLogParser p = some e) (s : MState) (g : String)
    (tv : Option (List String)) (kw : Option (List (String × PyVal)))
    (st : Bool) (ftype : Option String) :
    (FileMonitor.tail (.single (.pyStr g)) .noneGiven .noneGiven (some p) kw s).err =
      some e ∧
    (FileMonitor.tail (.single (.pyStr g)) .noneGiven .noneGiven (some p) kw s).state =
      s ∧
    (FileMonitor.track (.single (.pyStr g)) tv (some p) kw st ftype s).err =
      (FileMonitor.track (.single (.pyStr g)) tv none kw st ftype s).err ∧
    (FileMonitor.track (.single (.pyStr g)) tv (some p) kw st ftype s).state.fileTrackables =
      s.fileTrackables ++ [⟨.pyStr g, tv, st, some p, kw, ftype⟩] := by
  refine ⟨?_, ?_, ?_, ?_⟩ <;>
    simp [FileMonitor.tail, FileMonitor.track, he, globArgElems, PyVal.isStr]

/-- Witness for C3 amended, at a concrete undecorated parser and monitor. -/
theorem FileMonitor.parser_validation_only_in_tail_witness :
    (FileMonitor.tail (.single (.pyStr "log_*")) .noneGiven .noneGiven
        (some ⟨"my_parser", none, 2⟩) none (mkFileMonitor none true (1/1000) false)).err =
      some (.assertionError
        "Parser function must be decorated using the multiparser.parser decorator") :=
  (FileMonitor.parser_validation_only_in_tail ⟨"my_parser", none, 2⟩ _ (by decide)
    (mkFileMonitor none true (1/1000) false) "log_*" none none false none).1

/-- C4: the constructor's keyword-parameter set is the eight options found in
the source signature; it contains neither `timeout` nor
`terminate_all_on_fail`, so it differs from the ten-option set the
specification (and the repository's own test-suite, which constructs
`FileMonitor(..., timeout=..., terminate_all_on_fail=...)`) claims. -/
theorem fileMonitorInit_lacks_timeout_options :
    "timeout" ∉ fileMonitorInitParams ∧
    "terminate_all_on_fail" ∉ fileMonitorInitParams ∧
    "timeout" ∈ specClaimedInitParams ∧
    "terminate_all_on_fail" ∈ specClaimedInitParams ∧
    specClaimedInitParams ≠ fileMonitorInitParams := by
  decide

/-- C5 counterexample: for a monitor constructed with an externally owned
termination trigger (initially unset), `_complete` and `_abort_file_monitors`
are the same event, so scoped-acquisition exit sets the termination signal,
which was unset beforehand. -/
theorem FileMonitor.exit_sets_trigger_when_aliased :
    (FileMonitor.enter (mkFileMonitor (some false) true (1/1000) false)).abortSet = false ∧
    (FileMonitor.exitCtx
        (FileMonitor.enter (mkFileMonitor (some false) true (1/1000) false))).state.abortSet =
      true := by
  decide

/-- C5 amended: scoped-acquisition exit sets the completion signal, performs
no joins or thread teardown (its only effect is the completion-signal set,
and the thread slots are untouched), and leaves the termination signal
unchanged when no external trigger was supplied; with an external trigger the
two signals are one event, so exit sets the termination signal too. -/
theorem FileMonitor.exit_sets_complete_only (s : MState) :
    (FileMonitor.exitCtx s).state.completeSet = true ∧
    (FileMonitor.exitCtx s).trace = [Effect.setCompleteSignal] ∧
    (FileMonitor.exitCtx s).err = none ∧
    (FileMonitor.exitCtx s).state.fileMonitorThread = s.fileMonitorThread ∧
    (FileMonitor.exitCtx s).state.logMonitorThread = s.logMonitorThread ∧
    (s.manualAbort = false → (FileMonitor.exitCtx s).state.abortSet = s.abortSet) ∧
    (s.manualAbort = true → (FileMonitor.exitCtx s).state.abortSet = true) := by
  by_cases hm : s.manualAbort <;>
    simp [FileMonitor.exitCtx, MState.setComplete, hm]

/-- Witness for C5 amended at a concrete trigger-free monitor. -/
theorem FileMonitor.exit_sets_complete_only_witness :
    (FileMonitor.exitCtx (mkFileMonitor none true (1/1000) false)).state.abortSet =
      (mkFileMonitor none true (1/1000) false).abortSet :=
  (FileMonitor.exit_sets_complete_only (mkFileMonitor none true (1/1000) false)).2.2.2.2.2.1 rfl

end Multiparser

/-! ## Claims C6, C7, C8 -/

namespace Multiparser

theorem FileMonitor.checkCustomLogParser_assertion (p : PyParser) (e : PyError)
    (h : FileMonitor.checkCustomLogParser p = some e) :
    ∃ m, e = PyError.assertionError m := by
  unfold FileMonitor.checkCustomLogParser at h
  cases hc : p.callRaises <;> rw [hc] at h
  · split_ifs at h <;> simp_all <;> exact ⟨_, h.symm⟩
  · exact ⟨_, (Option.some_inj.mp h).symm⟩

/-- C6: a `tail` call that supplies a custom parser together with truthy
tracked values, or together with truthy labels, raises a configuration
`AssertionError` and leaves the monitor state untouched (no trackable is
appended); when the parser itself passes validation the error is the
tracked-values conflict, respectively the labels conflict. -/
theorem FileMonitor.tail_parser_conflict_errors (s : MState) (p : PyParser)
    (tv : TVArg) (labels : LabArg) (kw : Option (List (String × PyVal)))
    (a : GlobArg) (h : tv.truthy = true ∨ labels.truthy = true) :
    (∃ m, (FileMonitor.tail a tv labels (some p) kw s).err =
      some (.assertionError m)) ∧
    (FileMonitor.tail a tv labels (some p) kw s).state = s ∧
    (FileMonitor.checkCustomLogParser p = none → tv.truthy = true →
      (FileMonitor.tail a tv labels (some p) kw s).err =
        some (.assertionError msgBothTrackedAndParser)) ∧
    (FileMonitor.checkCustomLogParser p = none → tv.truthy = false →
      labels.truthy = true →
      (FileMonitor.tail a tv labels (some p) kw s).err =
        some (.assertionError msgBothLabelsAndParser)) := by
  unfold FileMonitor.tail
  cases hc : FileMonitor.checkCustomLogParser p
  · rcases h with htv | hlab
    · simp [hc, htv]
    · by_cases htv : tv.truthy <;> simp [hc, htv, hlab]
  · obtain ⟨m, rfl⟩ := FileMonitor.checkCustomLogParser_assertion p _ hc
    simp_all

/-- Witness for C6: a valid (decorated, well-shaped) parser together with a
non-empty tracked-values list raises the conflict error. -/
theorem FileMonitor.tail_parser_conflict_errors_witness :
    (FileMonitor.tail (.single (.pyStr "file*")) (.listOf ["value"]) .noneGiven
        (some ⟨"parse_wrapper", none, 2⟩) none
        (mkFileMonitor none true (1/1000) false)).err =
      some (.assertionError msgBothTrackedAndParser) :=
  (FileMonitor.tail_parser_conflict_errors (mkFileMonitor none true (1/1000) false)
    ⟨"parse_wrapper", none, 2⟩ (.listOf ["value"]) .noneGiven none
    (.single (.pyStr "file*")) (Or.inl rfl)).2.2.1 (by decide) rfl

/-- C7 counterexample: `exclude` has no type check of its own; a `bytes`
pattern (here `b"*.log"`) is accepted by `glob.glob` and the call raises
nothing at all, while an `int` pattern raises the library `TypeError`, not
the configuration `AssertionError` that `track`/`tail` raise. -/
theorem FileMonitor.exclude_nonstring_not_config_error :
    (FileMonitor.exclude (.listOf [PyVal.pyBytes [42, 46, 108, 111, 103]])
        (mkFileMonitor none true (1/1000) false)).err = none ∧
    (FileMonitor.exclude (.listOf [PyVal.pyInt 3])
        (mkFileMonitor none true (1/1000) false)).err =
      some (.typeError "expected str, bytes or os.PathLike object") := by
  decide

/-- C7 amended: `track` and `tail` validate every accumulated glob pattern
and raise the configuration `AssertionError` as soon as any is not a `str`,
returning no error when all are strings; `exclude` validates by expansion
alone, so a non-`str` non-`bytes` pattern raises the library `TypeError`
while `bytes` patterns pass silently. -/
theorem glob_pattern_validation (s : MState) (vs : List PyVal)
    (tv : Option (List String)) (cp : Option PyParser)
    (kw : Option (List (String × PyVal))) (st : Bool) (ftype : Option String) :
    ((∃ v ∈ vs, v.isStr = false) →
      (FileMonitor.track (.listOf vs) tv cp kw st ftype s).err =
        some (.assertionError msgGlobType)) ∧
    ((∃ v ∈ vs, v.isStr = false) →
      (FileMonitor.tail (.listOf vs) .noneGiven .noneGiven none kw s).err =
        some (.assertionError msgGlobType)) ∧
    ((∀ v ∈ vs, v.isStr = true) →
      (∀ t ∈ s.fileTrackables, t.glob_expr.isStr = true) →
      (FileMonitor.track (.listOf vs) tv cp kw st ftype s).err = none) ∧
    ((∃ v ∈ vs, v.isStr = false ∧ v.isBytes = false) →
      (FileMonitor.exclude (.listOf vs) s).err =
        some (.typeError "expected str, bytes or os.PathLike object")) ∧
    ((∀ v ∈ vs, v.isStr = true ∨ v.isBytes = true) →
      (∀ v ∈ s.excludedPatterns, v.isStr = true ∨ v.isBytes = true) →
      (FileMonitor.exclude (.listOf vs) s).err = none) := by
  have hvsfalse : (∃ v ∈ vs, v.isStr = false) → vs.all PyVal.isStr = false := by
    rintro ⟨v, hv, hvs⟩
    cases hall : vs.all PyVal.isStr with
    | false => rfl
    | true => exact absurd (List.all_eq_true.mp hall v hv) (by simp [hvs])
  unfold FileMonitor.track FileMonitor.tail FileMonitor.exclude
  simp only [globArgElems]
  refine ⟨?_, ?_, ?_, ?_, ?_⟩
  · intro hex
    simp [validateTrackableGlobs_eq, List.map_append, List.map_map, Function.comp,
      List.all_append, hvsfalse hex]
    try exact fun _ => hex
  · intro hex
    simp [validateTrackableGlobs_eq, List.map_append, List.map_map, Function.comp,
      List.all_append, hvsfalse hex, TVArg.truthy, TVArg.toList, LabArg.truthy,
      LabArg.toList]
    try exact fun _ => hex
  · intro hvs hold
    simp [validateTrackableGlobs_eq, List.map_append, List.map_map, Function.comp,
      List.all_append, List.all_eq_true.mpr hvs]
    try exact fun t ht => hold t ht
    try exact ⟨fun t ht => hold t ht, hvs⟩
  · rintro ⟨v, hv, hvs, hvb⟩
    have hvsall : (vs.all fun g => g.isStr || g.isBytes) = false := by
      cases hall : vs.all fun g => g.isStr || g.isBytes with
      | false => rfl
      | true => exact absurd (List.all_eq_true.mp hall v hv) (by simp [hvs, hvb])
    simp [validateExcludedGlobs_eq, List.all_append, hvsall]
  · intro hvs hold
    have h1 : (s.excludedPatterns.all fun g => g.isStr || g.isBytes) = true := by
      rw [List.all_eq_true]
      intro v hv
      rcases hold v hv with h | h <;> simp [h]
    have h2 : (vs.all fun g => g.isStr || g.isBytes) = true := by
      rw [List.all_eq_true]
      intro v hv
      rcases hvs v hv with h | h <;> simp [h]
    simp [validateExcludedGlobs_eq, List.all_append, h1, h2]

/-- Witness for C7 amended: a compiled regular expression in the list makes
`track` raise the configuration error. -/
theorem glob_pattern_validation_witness :
    (FileMonitor.track (.listOf [PyVal.pyRegex "x"]) none none none false none
        (mkFileMonitor none true (1/1000) false)).err =
      some (.assertionError msgGlobType) :=
  (glob_pattern_validation (mkFileMonitor none true (1/1000) false)
    [PyVal.pyRegex "x"] none none none false none).1
    ⟨PyVal.pyRegex "x", by decide, rfl⟩

/-- C8: calling `run` or `terminate` before scoped acquisition (no monitor
threads created by `__enter__`) raises the programmer-error
`AssertionError` telling the user to use the context manager. -/
theorem FileMonitor.run_terminate_require_context (s : MState)
    (h : s.fileMonitorThread = none ∨ s.logMonitorThread = none) :
    (FileMonitor.run s).err = some (.assertionError msgContextManager) ∧
    (FileMonitor.terminate true s).err =
      some (.assertionError msgContextManager) := by
  unfold FileMonitor.run FileMonitor.terminate
  rw [MState.setAbort_setComplete]
  rcases h with h | h
  · cases hl : s.logMonitorThread <;> simp [h, hl]
  · cases hf : s.fileMonitorThread <;> simp [h, hf]

/-- Witness for C8: a freshly constructed monitor has no threads. -/
theorem FileMonitor.run_terminate_require_context_witness :
    (FileMonitor.run (mkFileMonitor none true (1/1000) false)).err =
      some (.assertionError msgContextManager) :=
  (FileMonitor.run_terminate_require_context
    (mkFileMonitor none true (1/1000) false) (Or.inl rfl)).1

end Multiparser

/-! ## Claims C9, C10 -/

namespace Multiparser

theorem all_isStr_false_of_mem {vs : List PyVal} {v : PyVal} (hv : v ∈ vs)
    (hvs : v.isStr = false) : vs.all PyVal.isStr = false := by
  cases hall : vs.all PyVal.isStr with
  | false => rfl
  | true => exact absurd (List.all_eq_true.mp hall v hv) (by simp [hvs])

/-- C9: `track` and `tail` append the new trackables before running the glob
validation loop over the whole accumulated list, so a call whose input list
contains a non-string pattern raises the configuration error with the invalid
trackables already appended (the error is not atomic); and on any state whose
trackable list already holds a non-string glob expression, a subsequent call
to the same method with a single valid string pattern raises the same error
again. -/
theorem append_before_validate (s : MState) (vs : List PyVal)
    (tv : Option (List String)) (cp : Option PyParser)
    (kw : Option (List (String × PyVal))) (st : Bool) (ftype : Option String)
    (g : String) (hex : ∃ v ∈ vs, v.isStr = false) :
    (FileMonitor.track (.listOf vs) tv cp kw st ftype s).state.fileTrackables =
      s.fileTrackables ++ vs.map (fun v =>
        { glob_expr := v, tracked_values := tv, static := st, customParser := cp,
          parser_kwargs := kw, file_type := ftype }) ∧
    (FileMonitor.track (.listOf vs) tv cp kw st ftype s).err =
      some (.assertionError msgGlobType) ∧
    (∀ s' : MState, (∃ t ∈ s'.fileTrackables, t.glob_expr.isStr = false) →
      (FileMonitor.track (.single (.pyStr g)) tv cp kw st ftype s').err =
        some (.assertionError msgGlobType)) ∧
    (FileMonitor.tail (.listOf vs) .noneGiven .noneGiven none kw s).state.logTrackables =
      s.logTrackables ++ vs.map (fun v =>
        { glob_expr := v, tracked_values := none, static := false,
          customParser := none, parser_kwargs := kw }) ∧
    (FileMonitor.tail (.listOf vs) .noneGiven .noneGiven none kw s).err =
      some (.assertionError msgGlobType) ∧
    (∀ s' : MState, (∃ t ∈ s'.logTrackables, t.glob_expr.isStr = false) →
      (FileMonitor.tail (.single (.pyStr g)) .noneGiven .noneGiven none kw s').err =
        some (.assertionError msgGlobType)) := by
  obtain ⟨v, hv, hvs⟩ := hex
  have hvsall := all_isStr_false_of_mem hv hvs
  refine ⟨?_, ?_, ?_, ?_, ?_, ?_⟩
  · simp [FileMonitor.track, globArgElems]
  · simp [FileMonitor.track, globArgElems, validateTrackableGlobs_eq,
      List.map_append, List.map_map, Function.comp, List.all_append, hvsall]
    try exact fun _ => ⟨v, hv, hvs⟩
  · rintro s' ⟨t, ht, hts⟩
    have hold : (s'.fileTrackables.map (·.glob_expr)).all PyVal.isStr = false :=
      all_isStr_false_of_mem (List.mem_map_of_mem _ ht) hts
    simp [FileMonitor.track, globArgElems, PyVal.isStr, validateTrackableGlobs_eq,
      List.map_append, List.all_append, hold]
    try exact ⟨t, ht, hts⟩
  · simp [FileMonitor.tail, globArgElems, TVArg.truthy, LabArg.truthy,
      TVArg.toList, LabArg.toList]
  · simp [FileMonitor.tail, globArgElems, TVArg.truthy, LabArg.truthy,
      TVArg.toList, LabArg.toList, validateTrackableGlobs_eq, List.map_append,
      List.map_map, Function.comp, List.all_append, hvsall]
    try exact fun _ => ⟨v, hv, hvs⟩
  · rintro s' ⟨t, ht, hts⟩
    have hold : (s'.logTrackables.map (·.glob_expr)).all PyVal.isStr = false :=
      all_isStr_false_of_mem (List.mem_map_of_mem _ ht) hts
    simp [FileMonitor.tail, globArgElems, PyVal.isStr, TVArg.truthy, LabArg.truthy,
      TVArg.toList, LabArg.toList, validateTrackableGlobs_eq, List.map_append,
      List.all_append, hold]
    try exact ⟨t, ht, hts⟩

/-- Witness for C9: one `track` call with an integer pattern poisons the
trackable list, and a following `track` call with a valid string pattern
raises the same configuration error. -/
theorem append_before_validate_witness :
    (FileMonitor.track (.listOf [PyVal.pyInt 7]) none none none false none
        (mkFileMonitor none true (1/1000) false)).err =
      some (.assertionError msgGlobType) ∧
    (FileMonitor.track (.single (.pyStr "a.txt")) none none none false none
        (FileMonitor.track (.listOf [PyVal.pyInt 7]) none none none false none
          (mkFileMonitor none true (1/1000) false)).state).err =
      some (.assertionError msgGlobType) :=
  ⟨(append_before_validate (mkFileMonitor none true (1/1000) false) [PyVal.pyInt 7]
      none none none false none "a.txt" ⟨PyVal.pyInt 7, by decide, rfl⟩).2.1,
   (append_before_validate (mkFileMonitor none true (1/1000) false) [PyVal.pyInt 7]
      none none none false none "a.txt" ⟨PyVal.pyInt 7, by decide, rfl⟩).2.2.1 _
     ⟨⟨PyVal.pyInt 7, none, false, none, none, none⟩, by decide, rfl⟩⟩

/-- C10: with no custom parser, a non-empty labels list whose length differs
from the tracked-values list makes `tail` raise the label-count configuration
error with the state untouched; when the lengths agree the appended trackable
pairs each label with its expression in declaration order with
`static := false`; with labels omitted, each label in the pairing is `none`. -/
theorem FileMonitor.tail_label_pairing (s : MState) (g : String)
    (tvs : List String) (ls : List (Option String))
    (kw : Option (List (String × PyVal))) :
    (ls ≠ [] → ls.length ≠ tvs.length →
      (FileMonitor.tail (.single (.pyStr g)) (.listOf tvs) (.listOf ls) none kw s).err =
        some (.assertionError msgLabelCount) ∧
      (FileMonitor.tail (.single (.pyStr g)) (.listOf tvs) (.listOf ls) none kw s).state =
        s) ∧
    (ls ≠ [] → ls.length = tvs.length →
      (FileMonitor.tail (.single (.pyStr g)) (.listOf tvs) (.listOf ls) none kw
          s).state.logTrackables =
        s.logTrackables ++ [⟨.pyStr g, some (ls.zip tvs), false, none, kw⟩]) ∧
    (tvs ≠ [] →
      (FileMonitor.tail (.single (.pyStr g)) (.listOf tvs) .noneGiven none kw
          s).state.logTrackables =
        s.logTrackables ++
          [⟨.pyStr g, some ((List.replicate tvs.length (none : Option String)).zip tvs),
            false, none, kw⟩]) := by
  refine ⟨?_, ?_, ?_⟩
  · intro hls hlen
    have h1 : ls.isEmpty = false := by
      cases ls with
      | nil => exact absurd rfl hls
      | cons a l => rfl
    have h2 : (ls.length != tvs.length) = true := by simpa using hlen
    constructor <;>
      simp [FileMonitor.tail, TVArg.truthy, LabArg.truthy, TVArg.toList,
        LabArg.toList, h1, h2]
  · intro hls hlen
    have h1 : ls.isEmpty = false := by
      cases ls with
      | nil => exact absurd rfl hls
      | cons a l => rfl
    have h2 : (ls.length != tvs.length) = false := by simp [hlen]
    have h3 : tvs.isEmpty = false := by
      cases htv : tvs with
      | nil =>
        rw [htv] at hlen
        exact absurd (List.length_eq_zero.mp hlen) hls
      | cons a l => rfl
    simp [FileMonitor.tail, TVArg.truthy, LabArg.truthy, TVArg.toList,
      LabArg.toList, h1, h2, h3, globArgElems, PyVal.isStr]
  · intro htvs
    have h3 : tvs.isEmpty = false := by
      cases tvs with
      | nil => exact absurd rfl htvs
      | cons a l => rfl
    simp [FileMonitor.tail, TVArg.truthy, LabArg.truthy, TVArg.toList,
      LabArg.toList, h3, globArgElems, PyVal.isStr]

/-- Witness for C10 at a concrete mismatched call: two expressions, one
label. -/
theorem FileMonitor.tail_label_pairing_witness :
    (FileMonitor.tail (.single (.pyStr "log_*")) (.listOf ["a", "b"])
        (.listOf [some "x"]) none none (mkFileMonitor none true (1/1000) false)).err =
      some (.assertionError msgLabelCount) :=
  ((FileMonitor.tail_label_pairing (mkFileMonitor none true (1/1000) false) "log_*"
      ["a", "b"] [some "x"] none).1 (by decide) (by decide)).1

end Multiparser
